import Mathlib

/-!
Shallow embedding of `src/event-switches.c`, the switch event provider of the
mce daemon.  File reads/writes and datapipe publications are modelled as
explicit effect values returned by each operation; the module's static
variables become fields of an explicit state record that each handler
threads through.  String constants and enum types declared in `mce.h`
(which is not part of the sources given) are modelled as parameters or,
where the spec fixes their value, as definitions marked as such.
-/

namespace EventSwitches

/-- Cover state (`cover_state_t`, declared in mce.h outside the given
sources); only the two values used by event-switches.c are modelled. -/
inductive cover_state_t where
  | COVER_CLOSED
  | COVER_OPEN
deriving DecidableEq

/-- Camera button state (`camera_button_state_t`, declared in mce.h). -/
inductive camera_button_state_t where
  | CAMERA_BUTTON_UNPRESSED
  | CAMERA_BUTTON_LAUNCH
deriving DecidableEq

/-- USB cable state (`usb_cable_state_t`, declared in mce.h). -/
inductive usb_cable_state_t where
  | USB_CABLE_DISCONNECTED
  | USB_CABLE_CONNECTED
deriving DecidableEq

/-- Call state (`call_state_t`, declared in mce.h); constructors follow the
values the spec lists (Invalid, None, Ringing, Active, ...). -/
inductive call_state_t where
  | CALL_STATE_INVALID
  | CALL_STATE_NONE
  | CALL_STATE_RINGING
  | CALL_STATE_ACTIVE
  | CALL_STATE_SERVICE
deriving DecidableEq

/-- Alarm UI state (`alarm_ui_state_t`, declared in mce.h); constructors
follow the values the spec lists (Invalid, Visible, Ringing, ...). -/
inductive alarm_ui_state_t where
  | MCE_ALARM_UI_INVALID_INT32
  | MCE_ALARM_UI_OFF_INT32
  | MCE_ALARM_UI_VISIBLE_INT32
  | MCE_ALARM_UI_RINGING_INT32
  | MCE_ALARM_UI_SNOOZED_INT32
deriving DecidableEq

/-- Modelled from the spec: `MCE_TKLOCK_SUBMODE` is declared in mce.h, which
is missing from the given sources; the spec fixes the lock bit as `0b10`
("submode bit 0b10 (lock)"). -/
def MCE_TKLOCK_SUBMODE : Nat := 2

/-- Modelled from the spec: `MCE_NORMAL_SUBMODE` is declared in mce.h; the
spec says `old_submode` starts as "no flags set". -/
def MCE_NORMAL_SUBMODE : Nat := 0

/-- A datapipe publication (`execute_datapipe` on a given pipe with a given
value).  `device_inactive` with value `false` is the "activity" signal. -/
inductive Pub where
  | device_inactive (b : Bool)
  | camera_button (s : camera_button_state_t)
  | lockkey (v : Int)
  | keyboard_slide (s : cover_state_t)
  | lid_cover (s : cover_state_t)
  | proximity_sensor (s : cover_state_t)
  | usb_cable (s : usb_cable_state_t)
  | lens_cover (s : cover_state_t)
deriving DecidableEq

/-- An externally observable side effect of the interlock engine or of
start-up: a control-surface write (`mce_write_string_to_file` on
`MCE_PROXIMITY_SENSOR_DISABLE_PATH` or `MCE_CAM_FOCUS_DISABLE_PATH`) or a
datapipe publication. -/
inductive Effect where
  | write_proximity_disable (v : String)
  | write_cam_focus_disable (v : String)
  | pub (p : Pub)
deriving DecidableEq

/-- C `strncmp` on NUL-terminated strings modelled as lists of the characters
before the terminator (so the end of a list stands for the NUL byte, and a
NUL byte cannot occur inside either list). -/
def strncmp : List Char → List Char → Nat → Int
  | _, _, 0 => 0
  | [], [], _ + 1 => 0
  | [], b :: _, _ + 1 => 0 - (b.toNat : Int)
  | a :: _, [], _ + 1 => (a.toNat : Int)
  | a :: as, b :: bs, n + 1 =>
      if a = b then strncmp as bs n else (a.toNat : Int) - (b.toNat : Int)

/-- A list of characters modelling a C string contains no NUL byte. -/
def nul_free (s : List Char) : Bool := s.all (fun c => c.toNat != 0)

/-- `generic_activity_iomon_cb`: publishes only the activity signal,
ignoring the payload.  (The C callback always returns FALSE; the returned
publications are the only observable behaviour.) -/
def generic_activity_iomon_cb (data : List Char) : List Pub :=
  [Pub.device_inactive false]

/-- `camera_launch_button_iomon_cb`.  `MCE_CAM_LAUNCH_ACTIVE` is the active
literal from mce.h (not in the given sources), passed as a parameter. -/
def camera_launch_button_iomon_cb (MCE_CAM_LAUNCH_ACTIVE data : List Char) :
    List Pub :=
  let camera_button_state :=
    if strncmp data MCE_CAM_LAUNCH_ACTIVE MCE_CAM_LAUNCH_ACTIVE.length = 0 then
      camera_button_state_t.CAMERA_BUTTON_LAUNCH
    else
      camera_button_state_t.CAMERA_BUTTON_UNPRESSED
  [Pub.device_inactive false, Pub.camera_button camera_button_state]

/-- `lockkey_iomon_cb`.  `MCE_FLICKER_KEY_ACTIVE` is the active literal from
mce.h, passed as a parameter. -/
def lockkey_iomon_cb (MCE_FLICKER_KEY_ACTIVE data : List Char) : List Pub :=
  let lockkey_state : Int :=
    if strncmp data MCE_FLICKER_KEY_ACTIVE MCE_FLICKER_KEY_ACTIVE.length = 0
    then 1
    else 0
  [Pub.lockkey lockkey_state]

/-- `kbd_slide_iomon_cb`.  `MCE_KBD_SLIDE_OPEN` is the active literal from
mce.h, passed as a parameter. -/
def kbd_slide_iomon_cb (MCE_KBD_SLIDE_OPEN data : List Char) : List Pub :=
  if strncmp data MCE_KBD_SLIDE_OPEN MCE_KBD_SLIDE_OPEN.length = 0 then
    [Pub.device_inactive false,
     Pub.keyboard_slide cover_state_t.COVER_OPEN]
  else
    [Pub.keyboard_slide cover_state_t.COVER_CLOSED]

/-- `lid_cover_iomon_cb`.  `MCE_LID_COVER_OPEN` is the active literal from
mce.h, passed as a parameter. -/
def lid_cover_iomon_cb (MCE_LID_COVER_OPEN data : List Char) : List Pub :=
  if strncmp data MCE_LID_COVER_OPEN MCE_LID_COVER_OPEN.length = 0 then
    [Pub.device_inactive false,
     Pub.lid_cover cover_state_t.COVER_OPEN]
  else
    [Pub.lid_cover cover_state_t.COVER_CLOSED]

/-- `proximity_sensor_iomon_cb`.  `MCE_PROXIMITY_SENSOR_OPEN` is the active
literal from mce.h, passed as a parameter. -/
def proximity_sensor_iomon_cb (MCE_PROXIMITY_SENSOR_OPEN data : List Char) :
    List Pub :=
  let proximity_sensor_state :=
    if strncmp data MCE_PROXIMITY_SENSOR_OPEN
         MCE_PROXIMITY_SENSOR_OPEN.length = 0 then
      cover_state_t.COVER_OPEN
    else
      cover_state_t.COVER_CLOSED
  [Pub.proximity_sensor proximity_sensor_state]

/-- `usb_cable_iomon_cb`.  `MCE_MUSB_OMAP3_USB_CABLE_CONNECTED` is the active
literal from mce.h, passed as a parameter. -/
def usb_cable_iomon_cb (MCE_MUSB_OMAP3_USB_CABLE_CONNECTED data : List Char) :
    List Pub :=
  let cable_state :=
    if strncmp data MCE_MUSB_OMAP3_USB_CABLE_CONNECTED
         MCE_MUSB_OMAP3_USB_CABLE_CONNECTED.length = 0 then
      usb_cable_state_t.USB_CABLE_CONNECTED
    else
      usb_cable_state_t.USB_CABLE_DISCONNECTED
  [Pub.device_inactive false, Pub.usb_cable cable_state]

/-- `lens_cover_iomon_cb`.  `MCE_LENS_COVER_OPEN` is the active literal from
mce.h, passed as a parameter. -/
def lens_cover_iomon_cb (MCE_LENS_COVER_OPEN data : List Char) : List Pub :=
  if strncmp data MCE_LENS_COVER_OPEN MCE_LENS_COVER_OPEN.length = 0 then
    [Pub.device_inactive false,
     Pub.lens_cover cover_state_t.COVER_OPEN]
  else
    [Pub.lens_cover cover_state_t.COVER_CLOSED]

/-- The module's static variables, as one explicit state record.  Monitor
IDs are modelled as booleans (non-NULL or NULL); `old_submode` is the
static local of `submode_trigger`. -/
structure SwitchState where
  lockkey_iomon_id : Bool
  kbd_slide_iomon_id : Bool
  cam_focus_iomon_id : Bool
  cam_focus_disable_exists : Bool
  cam_launch_iomon_id : Bool
  lid_cover_iomon_id : Bool
  proximity_sensor_iomon_id : Bool
  proximity_sensor_disable_exists : Bool
  musb_omap3_usb_cable_iomon_id : Bool
  mmc0_cover_iomon_id : Bool
  mmc_cover_iomon_id : Bool
  lens_cover_iomon_id : Bool
  bat_cover_iomon_id : Bool
  call_state : call_state_t
  alarm_ui_state : alarm_ui_state_t
  has_flicker_key : Bool
  old_submode : Nat
deriving DecidableEq

/-- The static initializers of event-switches.c: all monitor IDs NULL, both
capability flags FALSE, `call_state = CALL_STATE_INVALID`,
`alarm_ui_state = MCE_ALARM_UI_INVALID_INT32`, `has_flicker_key = FALSE`,
`old_submode = MCE_NORMAL_SUBMODE`. -/
def initial_state : SwitchState :=
  { lockkey_iomon_id := false
    kbd_slide_iomon_id := false
    cam_focus_iomon_id := false
    cam_focus_disable_exists := false
    cam_launch_iomon_id := false
    lid_cover_iomon_id := false
    proximity_sensor_iomon_id := false
    proximity_sensor_disable_exists := false
    musb_omap3_usb_cable_iomon_id := false
    mmc0_cover_iomon_id := false
    mmc_cover_iomon_id := false
    lens_cover_iomon_id := false
    bat_cover_iomon_id := false
    call_state := call_state_t.CALL_STATE_INVALID
    alarm_ui_state := alarm_ui_state_t.MCE_ALARM_UI_INVALID_INT32
    has_flicker_key := false
    old_submode := MCE_NORMAL_SUBMODE }

/-- The file-system environment the proximity refresh reads from:
the outcome of `mce_read_string_from_file(MCE_PROXIMITY_SENSOR_STATE_PATH)`
(`none` = read failure) and the mce.h literal `MCE_PROXIMITY_SENSOR_OPEN`. -/
structure IoEnv where
  proximity_read : Option (List Char)
  MCE_PROXIMITY_SENSOR_OPEN : List Char
deriving DecidableEq

/-- `update_proximity_sensor_state`: re-reads the proximity state file and
republishes it.  Returns (status, publications).  Faithful to the source,
the local `status` is initialized to FALSE and never set to TRUE, so the
function returns FALSE on the success path as well. -/
def update_proximity_sensor_state (env : IoEnv) : Bool × List Effect :=
  match env.proximity_read with
  | none => (false, [])
  | some tmp =>
      let proximity_sensor_state :=
        if strncmp tmp env.MCE_PROXIMITY_SENSOR_OPEN
             env.MCE_PROXIMITY_SENSOR_OPEN.length = 0 then
          cover_state_t.COVER_OPEN
        else
          cover_state_t.COVER_CLOSED
      (false, [Effect.pub (Pub.proximity_sensor proximity_sensor_state)])

/-- `update_proximity_monitor`: recomputes the proximity interlock from the
cached call/alarm state and the capability flag, returning the effects it
performs. -/
def update_proximity_monitor (s : SwitchState) (env : IoEnv) : List Effect :=
  if s.proximity_sensor_disable_exists = false then
    []
  else if s.call_state = call_state_t.CALL_STATE_RINGING ∨
          s.call_state = call_state_t.CALL_STATE_ACTIVE ∨
          s.alarm_ui_state = alarm_ui_state_t.MCE_ALARM_UI_VISIBLE_INT32 ∨
          s.alarm_ui_state = alarm_ui_state_t.MCE_ALARM_UI_RINGING_INT32 then
    Effect.write_proximity_disable "0" :: (update_proximity_sensor_state env).2
  else
    [Effect.write_proximity_disable "1"]

/-- `call_state_trigger`: caches the new call state, then recomputes the
proximity interlock. -/
def call_state_trigger (s : SwitchState) (env : IoEnv) (data : call_state_t) :
    SwitchState × List Effect :=
  let s2 := { s with call_state := data }
  (s2, update_proximity_monitor s2 env)

/-- `alarm_ui_state_trigger`: caches the new alarm UI state, then recomputes
the proximity interlock. -/
def alarm_ui_state_trigger (s : SwitchState) (env : IoEnv)
    (data : alarm_ui_state_t) : SwitchState × List Effect :=
  let s2 := { s with alarm_ui_state := data }
  (s2, update_proximity_monitor s2 env)

/-- `submode_trigger`: on a rising edge of the tklock bit, writes "1" to the
camera-focus disable surface (if it exists and the focus monitor is open);
on a falling edge, writes "0" (if the surface exists); always updates
`old_submode` to the new submode. -/
def submode_trigger (s : SwitchState) (data : Nat) :
    SwitchState × List Effect :=
  let submode := data
  let effs :=
    if submode &&& MCE_TKLOCK_SUBMODE ≠ 0 then
      if s.old_submode &&& MCE_TKLOCK_SUBMODE = 0 then
        if s.cam_focus_disable_exists = true ∧ s.cam_focus_iomon_id = true
        then [Effect.write_cam_focus_disable "1"]
        else []
      else []
    else
      if s.old_submode &&& MCE_TKLOCK_SUBMODE ≠ 0 then
        if s.cam_focus_disable_exists = true
        then [Effect.write_cam_focus_disable "0"]
        else []
      else []
  ({ s with old_submode := submode }, effs)

/-- Environment of `mce_switches_init`: the outcome of each
`mce_register_io_monitor_string` call (non-NULL handle or NULL) and of the
two `g_access(..., W_OK) == 0` probes, plus the file-system environment the
initial interlock run reads from. -/
structure InitEnv where
  io : IoEnv
  lockkey_reg : Bool
  kbd_slide_reg : Bool
  cam_focus_reg : Bool
  cam_launch_reg : Bool
  lid_cover_reg : Bool
  proximity_sensor_reg : Bool
  musb_omap3_usb_cable_reg : Bool
  lens_cover_reg : Bool
  mmc0_cover_reg : Bool
  mmc_cover_reg : Bool
  bat_cover_reg : Bool
  proximity_disable_writable : Bool
  cam_focus_disable_writable : Bool
deriving DecidableEq

/-- `mce_switches_init`: seeds the lid-cover pipe with COVER_OPEN, records
the I/O monitor registration outcomes, runs the proximity interlock once,
sets `has_flicker_key` if the lockkey monitor opened, then probes and
records the two capability flags.  Returns (status, final state, effects
in program order). -/
def mce_switches_init (s : SwitchState) (env : InitEnv) :
    Bool × SwitchState × List Effect :=
  let effs0 := [Effect.pub (Pub.lid_cover cover_state_t.COVER_OPEN)]
  let s1 :=
    { s with
      lockkey_iomon_id := env.lockkey_reg
      kbd_slide_iomon_id := env.kbd_slide_reg
      cam_focus_iomon_id := env.cam_focus_reg
      cam_launch_iomon_id := env.cam_launch_reg
      lid_cover_iomon_id := env.lid_cover_reg
      proximity_sensor_iomon_id := env.proximity_sensor_reg
      musb_omap3_usb_cable_iomon_id := env.musb_omap3_usb_cable_reg
      mmc0_cover_iomon_id := env.mmc0_cover_reg
      mmc_cover_iomon_id := env.mmc_cover_reg
      lens_cover_iomon_id := env.lens_cover_reg
      bat_cover_iomon_id := env.bat_cover_reg }
  let effs1 := effs0 ++ update_proximity_monitor s1 env.io
  let s2 :=
    if s1.lockkey_iomon_id = true then { s1 with has_flicker_key := true }
    else s1
  let s3 :=
    { s2 with proximity_sensor_disable_exists := env.proximity_disable_writable }
  let s4 :=
    { s3 with cam_focus_disable_exists := env.cam_focus_disable_writable }
  (true, s4, effs1)

/-- Iterate `submode_trigger` over a sequence of submode updates,
accumulating the control writes in order. -/
def run_submode_triggers : SwitchState → List Nat → SwitchState × List Effect
  | s, [] => (s, [])
  | s, d :: ds =>
      let r := submode_trigger s d
      let r2 := run_submode_triggers r.1 ds
      (r2.1, r.2 ++ r2.2)

/-- Spec-side description of the camera-focus interlock writes: one
"disable" write per rising edge of the tklock bit and one "enable" write
per falling edge, nothing otherwise. -/
def tklock_edge_writes : Nat → List Nat → List Effect
  | _, [] => []
  | old, d :: ds =>
      (if d &&& MCE_TKLOCK_SUBMODE ≠ 0 ∧ old &&& MCE_TKLOCK_SUBMODE = 0 then
         [Effect.write_cam_focus_disable "1"]
       else if d &&& MCE_TKLOCK_SUBMODE = 0 ∧ old &&& MCE_TKLOCK_SUBMODE ≠ 0
       then [Effect.write_cam_focus_disable "0"]
       else []) ++ tklock_edge_writes d ds

/-- Spec-side "sensor needed" predicate: a call is ringing or active, or the
alarm UI is visible or ringing. -/
def sensor_needed (cs : call_state_t) (a : alarm_ui_state_t) : Bool :=
  (cs = call_state_t.CALL_STATE_RINGING ∨
   cs = call_state_t.CALL_STATE_ACTIVE ∨
   a = alarm_ui_state_t.MCE_ALARM_UI_VISIBLE_INT32 ∨
   a = alarm_ui_state_t.MCE_ALARM_UI_RINGING_INT32 : Bool)

/-- Recognizer for proximity-disable control-surface writes. -/
def is_proximity_disable_write : Effect → Bool
  | Effect.write_proximity_disable _ => true
  | _ => false

/-- A concrete active literal ("open") for instantiating the theorems. -/
def open_lit : List Char := ['o', 'p', 'e', 'n']

/-- A concrete payload that begins with `open_lit`. -/
def open_payload : List Char := ['o', 'p', 'e', 'n', '\n']

/-- A concrete I/O environment: the proximity state file reads back a
payload matching the open literal. -/
def demo_io_env : IoEnv :=
  { proximity_read := some open_payload
    MCE_PROXIMITY_SENSOR_OPEN := open_lit }

/-- A concrete state with both capability flags and the camera-focus
monitor present. -/
def demo_state : SwitchState :=
  { initial_state with
      cam_focus_disable_exists := true
      cam_focus_iomon_id := true
      proximity_sensor_disable_exists := true }

/-- A concrete start-up environment: every registration succeeds and both
control surfaces are writable. -/
def demo_init_env : InitEnv :=
  { io := demo_io_env
    lockkey_reg := true
    kbd_slide_reg := true
    cam_focus_reg := true
    cam_launch_reg := true
    lid_cover_reg := true
    proximity_sensor_reg := true
    musb_omap3_usb_cable_reg := true
    lens_cover_reg := true
    mmc0_cover_reg := true
    mmc_cover_reg := true
    bat_cover_reg := true
    proximity_disable_writable := true
    cam_focus_disable_writable := true }

/-! Helper lemmas. -/

theorem char_eq_of_toNat_eq (a b : Char) (h : a.toNat = b.toNat) : a = b := by
  have h2 : Char.ofNat a.toNat = Char.ofNat b.toNat := by rw [h]
  rwa [Char.ofNat_toNat, Char.ofNat_toNat] at h2

theorem nul_free_cons (c : Char) (cs : List Char) :
    nul_free (c :: cs) = true ↔ c.toNat ≠ 0 ∧ nul_free cs = true := by
  simp [nul_free]

theorem strncmp_zero (x y : List Char) : strncmp x y 0 = 0 := by
  cases x <;> cases y <;> rfl

theorem strncmp_nil_cons (b : Char) (bs : List Char) (n : Nat) :
    strncmp [] (b :: bs) (n + 1) = 0 - (b.toNat : Int) := rfl

theorem strncmp_cons_cons (a b : Char) (as bs : List Char) (n : Nat) :
    strncmp (a :: as) (b :: bs) (n + 1) =
      if a = b then strncmp as bs n
      else (a.toNat : Int) - (b.toNat : Int) := rfl

/-- Central prefix lemma: comparing a payload against a literal with
`strncmp(payload, literal, strlen(literal))` succeeds exactly when the
literal is a prefix of the payload, provided neither contains a NUL
byte (which a C string cannot). -/
theorem strncmp_eq_zero_iff (lit : List Char) : ∀ data : List Char,
    nul_free data = true → nul_free lit = true →
    (strncmp data lit lit.length = 0 ↔ lit.isPrefixOf data = true) := by
  induction lit with
  | nil =>
      intro data _ _
      simp [strncmp_zero, List.isPrefixOf]
  | cons b bs ih =>
      intro data hd hl
      obtain ⟨hb, hbs⟩ := (nul_free_cons b bs).mp hl
      cases data with
      | nil =>
          rw [List.length_cons, strncmp_nil_cons]
          simp only [List.isPrefixOf]
          constructor
          · intro h
            exfalso
            apply hb
            omega
          · intro h
            cases h
      | cons a as =>
          obtain ⟨ha, has⟩ := (nul_free_cons a as).mp hd
          rw [List.length_cons, strncmp_cons_cons]
          simp only [List.isPrefixOf, Bool.and_eq_true, beq_iff_eq]
          by_cases hab : a = b
          · subst hab
            simp only [if_pos rfl, true_and]
            exact ih as has hbs
          · have hba : ¬ b = a := fun h => hab h.symm
            have hne : ¬ ((a.toNat : Int) - (b.toNat : Int) = 0) := by
              intro h
              exact hab (char_eq_of_toNat_eq a b (by omega))
            simp [hab, hba, hne]

/-! Claim theorems. -/

/-- C1: recomputing the proximity interlock writes "0" (enable) and then
performs the synchronous refresh when the control surface exists and the
sensor is needed (call ringing/active or alarm UI visible/ringing); writes
"1" (disable) with no refresh when the surface exists and the sensor is not
needed; and performs no write and no refresh when the surface does not
exist. -/
theorem update_proximity_monitor_matches_needed (s : SwitchState)
    (env : IoEnv) :
    update_proximity_monitor s env =
      if s.proximity_sensor_disable_exists = true then
        (if sensor_needed s.call_state s.alarm_ui_state = true then
          Effect.write_proximity_disable "0" ::
            (update_proximity_sensor_state env).2
        else
          [Effect.write_proximity_disable "1"])
      else [] := by
  unfold update_proximity_monitor sensor_needed
  cases hx : s.proximity_sensor_disable_exists
  · simp [hx]
  · by_cases hc : s.call_state = call_state_t.CALL_STATE_RINGING ∨
        s.call_state = call_state_t.CALL_STATE_ACTIVE ∨
        s.alarm_ui_state = alarm_ui_state_t.MCE_ALARM_UI_VISIBLE_INT32 ∨
        s.alarm_ui_state = alarm_ui_state_t.MCE_ALARM_UI_RINGING_INT32
    · simp [hx, hc]
    · simp [hx, hc]

/-- C5: `update_proximity_sensor_state` never sets its local `status` to
TRUE, so it returns FALSE on every path — including a successful read,
where it does republish the re-read state — contradicting its own doc
comment ("@return TRUE on success, FALSE on failure") and the spec; a
failed read performs no publication. -/
theorem update_proximity_sensor_state_always_false :
    (∀ env : IoEnv, (update_proximity_sensor_state env).1 = false) ∧
    (∀ lit : List Char,
      update_proximity_sensor_state
        { proximity_read := none, MCE_PROXIMITY_SENSOR_OPEN := lit } =
        (false, [])) ∧
    update_proximity_sensor_state demo_io_env =
      (false, [Effect.pub (Pub.proximity_sensor cover_state_t.COVER_OPEN)]) := by
  refine ⟨?_, ?_, ?_⟩
  · intro env
    obtain ⟨r, lit⟩ := env
    cases r <;> rfl
  · intro lit
    rfl
  · decide

/-- C6: the start-up run of the proximity interlock happens before the
capability probe, while `proximity_sensor_disable_exists` still holds its
static initial value FALSE; so even when the probe then records that the
control surface exists, no command at all is written to the proximity
control surface during init (here the needed predicate is false, so the
claimed write would have been "1"). -/
theorem init_interlock_writes_nothing :
    (mce_switches_init initial_state demo_init_env).2.2.filter
        is_proximity_disable_write = [] ∧
    (mce_switches_init initial_state
        demo_init_env).2.1.proximity_sensor_disable_exists = true ∧
    sensor_needed initial_state.call_state initial_state.alarm_ui_state =
      false := by
  refine ⟨?_, rfl, rfl⟩
  rfl

/-- C7: delivering a call-state or alarm-state update carrying the value
already cached leaves the cached state unchanged and issues exactly the
effects of the (deterministic) interlock recomputation on the unchanged
state; repeating the delivery reproduces the identical result. -/
theorem proximity_interlock_idempotent (s : SwitchState) (env : IoEnv)
    (d : call_state_t) (a : alarm_ui_state_t)
    (hc : s.call_state = d) (ha : s.alarm_ui_state = a) :
    call_state_trigger s env d = (s, update_proximity_monitor s env) ∧
    alarm_ui_state_trigger s env a = (s, update_proximity_monitor s env) ∧
    call_state_trigger (call_state_trigger s env d).1 env d =
      call_state_trigger s env d ∧
    alarm_ui_state_trigger (alarm_ui_state_trigger s env a).1 env a =
      alarm_ui_state_trigger s env a := by
  subst hc
  subst ha
  exact ⟨rfl, rfl, rfl, rfl⟩

/-- Witness for C7 at a concrete state and environment. -/
theorem proximity_interlock_idempotent_witness :
    initial_state.call_state = call_state_t.CALL_STATE_INVALID ∧
    initial_state.alarm_ui_state =
      alarm_ui_state_t.MCE_ALARM_UI_INVALID_INT32 ∧
    call_state_trigger initial_state demo_io_env
        call_state_t.CALL_STATE_INVALID =
      (initial_state, update_proximity_monitor initial_state demo_io_env) :=
  ⟨rfl, rfl,
   (proximity_interlock_idempotent initial_state demo_io_env
      call_state_t.CALL_STATE_INVALID
      alarm_ui_state_t.MCE_ALARM_UI_INVALID_INT32 rfl rfl).1⟩

/-- C8: `mce_switches_init` returns TRUE for every combination of
registration outcomes, and (starting from `has_flicker_key = FALSE`, its
static initial value) sets `has_flicker_key` exactly when the lock-key
registration returned a non-NULL handle. -/
theorem mce_switches_init_always_true (s : SwitchState) (env : InitEnv)
    (h : s.has_flicker_key = false) :
    (mce_switches_init s env).1 = true ∧
    (mce_switches_init s env).2.1.has_flicker_key = env.lockkey_reg := by
  refine ⟨rfl, ?_⟩
  unfold mce_switches_init
  cases hr : env.lockkey_reg <;> simp [hr, h]

/-- Witness for C8: a concrete start-up in which every registration fails
still returns TRUE, and `has_flicker_key` stays FALSE. -/
theorem mce_switches_init_always_true_witness :
    initial_state.has_flicker_key = false ∧
    (mce_switches_init initial_state
        { demo_init_env with lockkey_reg := false }).1 = true ∧
    (mce_switches_init initial_state
        { demo_init_env with lockkey_reg := false }).2.1.has_flicker_key =
      false :=
  ⟨rfl,
   (mce_switches_init_always_true initial_state
      { demo_init_env with lockkey_reg := false } rfl).1,
   (mce_switches_init_always_true initial_state
      { demo_init_env with lockkey_reg := false } rfl).2⟩

/-- C9: each handler mutates only its own cached field: `call_state_trigger`
only `call_state`, `alarm_ui_state_trigger` only `alarm_ui_state`,
`submode_trigger` only `old_submode`; in particular none of them touches
the capability flags or `has_flicker_key`. -/
theorem trigger_frame_conditions (s : SwitchState) (env : IoEnv)
    (d : call_state_t) (a : alarm_ui_state_t) (m : Nat) :
    (call_state_trigger s env d).1 = { s with call_state := d } ∧
    (alarm_ui_state_trigger s env a).1 = { s with alarm_ui_state := a } ∧
    (submode_trigger s m).1 = { s with old_submode := m } :=
  ⟨rfl, rfl, rfl⟩

/-- Effects of a single `submode_trigger` evaluation when the camera-focus
disable surface exists and the focus monitor is open: one write per
tklock-bit edge, none otherwise. -/
theorem submode_trigger_step (s : SwitchState) (d : Nat)
    (h1 : s.cam_focus_disable_exists = true)
    (h2 : s.cam_focus_iomon_id = true) :
    (submode_trigger s d).2 =
      (if d &&& MCE_TKLOCK_SUBMODE ≠ 0 ∧
          s.old_submode &&& MCE_TKLOCK_SUBMODE = 0 then
        [Effect.write_cam_focus_disable "1"]
      else if d &&& MCE_TKLOCK_SUBMODE = 0 ∧
          s.old_submode &&& MCE_TKLOCK_SUBMODE ≠ 0 then
        [Effect.write_cam_focus_disable "0"]
      else []) := by
  unfold submode_trigger
  by_cases hd : d &&& MCE_TKLOCK_SUBMODE = 0 <;>
    by_cases ho : s.old_submode &&& MCE_TKLOCK_SUBMODE = 0 <;>
      simp [hd, ho, h1, h2]

/-- C2: with the camera-focus disable control present and the focus monitor
open, a sequence of submode updates produces exactly one "1" write per
rising edge of the tklock bit and one "0" write per falling edge, nothing
for updates changing only other bits, and `old_submode` always tracks the
last delivered submode. -/
theorem submode_trigger_edge_only_writes (ds : List Nat) :
    ∀ s : SwitchState,
    s.cam_focus_disable_exists = true → s.cam_focus_iomon_id = true →
    (run_submode_triggers s ds).2 = tklock_edge_writes s.old_submode ds ∧
    (run_submode_triggers s ds).1 =
      { s with old_submode := ds.foldl (fun _ d => d) s.old_submode } := by
  induction ds with
  | nil =>
      intro s _ _
      exact ⟨rfl, rfl⟩
  | cons d ds ih =>
      intro s h1 h2
      obtain ⟨e1, e2⟩ := ih { s with old_submode := d } h1 h2
      constructor
      · show (submode_trigger s d).2 ++
            (run_submode_triggers (submode_trigger s d).1 ds).2 = _
        rw [submode_trigger_step s d h1 h2]
        rw [show (run_submode_triggers (submode_trigger s d).1 ds).2 =
              tklock_edge_writes d ds from e1]
        rfl
      · exact e2

/-- Witness for C2: setting the lock bit, clearing it, and setting it again
issues exactly three writes — disable, enable, disable. -/
theorem submode_trigger_edge_only_writes_witness :
    demo_state.cam_focus_disable_exists = true ∧
    demo_state.cam_focus_iomon_id = true ∧
    (run_submode_triggers demo_state [2, 0, 2]).2 =
      [Effect.write_cam_focus_disable "1", Effect.write_cam_focus_disable "0",
       Effect.write_cam_focus_disable "1"] ∧
    (run_submode_triggers demo_state [2, 3, 1]).2 =
      [Effect.write_cam_focus_disable "1",
       Effect.write_cam_focus_disable "0"] :=
  ⟨rfl, rfl,
   by
     rw [(submode_trigger_edge_only_writes [2, 0, 2] demo_state rfl rfl).1]
     decide,
   by
     rw [(submode_trigger_edge_only_writes [2, 3, 1] demo_state rfl rfl).1]
     decide⟩

/-- C3: each translator classifies a payload as the positive state exactly
when the payload begins with the switch kind's active literal (equality or
strict prefix, byte-for-byte); every other payload, the empty one included,
yields the negative state, with no error case. -/
theorem classify_positive_iff_starts (lit data : List Char)
    (hd : nul_free data = true) (hl : nul_free lit = true) :
    (strncmp data lit lit.length = 0 ↔ lit.isPrefixOf data = true) ∧
    (lid_cover_iomon_cb lit data =
      if lit.isPrefixOf data then
        [Pub.device_inactive false, Pub.lid_cover cover_state_t.COVER_OPEN]
      else [Pub.lid_cover cover_state_t.COVER_CLOSED]) ∧
    (proximity_sensor_iomon_cb lit data =
      [Pub.proximity_sensor
        (if lit.isPrefixOf data then cover_state_t.COVER_OPEN
         else cover_state_t.COVER_CLOSED)]) ∧
    (usb_cable_iomon_cb lit data =
      [Pub.device_inactive false,
       Pub.usb_cable
         (if lit.isPrefixOf data then usb_cable_state_t.USB_CABLE_CONNECTED
          else usb_cable_state_t.USB_CABLE_DISCONNECTED)]) := by
  have key := strncmp_eq_zero_iff lit data hd hl
  refine ⟨key, ?_, ?_, ?_⟩ <;>
    by_cases h : strncmp data lit lit.length = 0
  case pos | pos | pos =>
    simp only [lid_cover_iomon_cb, proximity_sensor_iomon_cb,
      usb_cable_iomon_cb]
    simp [h, key.mp h]
  case neg | neg | neg =>
    have hneg : lit.isPrefixOf data = false := by
      cases hb : lit.isPrefixOf data
      · rfl
      · exact absurd (key.mpr hb) h
    simp only [lid_cover_iomon_cb, proximity_sensor_iomon_cb,
      usb_cable_iomon_cb]
    simp [h, hneg]

/-- Witness for C3 on a concrete literal and payload. -/
theorem classify_positive_iff_starts_witness :
    nul_free open_payload = true ∧ nul_free open_lit = true ∧
    open_lit.isPrefixOf open_payload = true ∧
    strncmp open_payload open_lit open_lit.length = 0 :=
  ⟨by decide, by decide, by decide,
   ((classify_positive_iff_starts open_lit open_payload (by decide)
       (by decide)).1).mpr (by decide)⟩

/-- C4: the activity signal is published exactly per the per-kind policy:
lid cover, keyboard slide and lens cover publish it iff the payload
classifies positive; USB cable and camera launch button publish it
unconditionally; the proximity sensor and lock key never publish it; the
generic translator publishes only the activity signal. -/
theorem activity_signal_policy (lit data : List Char) :
    (Pub.device_inactive false ∈ lid_cover_iomon_cb lit data ↔
       strncmp data lit lit.length = 0) ∧
    (Pub.device_inactive false ∈ kbd_slide_iomon_cb lit data ↔
       strncmp data lit lit.length = 0) ∧
    (Pub.device_inactive false ∈ lens_cover_iomon_cb lit data ↔
       strncmp data lit lit.length = 0) ∧
    Pub.device_inactive false ∈ usb_cable_iomon_cb lit data ∧
    Pub.device_inactive false ∈ camera_launch_button_iomon_cb lit data ∧
    Pub.device_inactive false ∉ proximity_sensor_iomon_cb lit data ∧
    Pub.device_inactive false ∉ lockkey_iomon_cb lit data ∧
    generic_activity_iomon_cb data = [Pub.device_inactive false] := by
  unfold lid_cover_iomon_cb kbd_slide_iomon_cb lens_cover_iomon_cb
    usb_cable_iomon_cb camera_launch_button_iomon_cb
    proximity_sensor_iomon_cb lockkey_iomon_cb
  by_cases h : strncmp data lit lit.length = 0 <;>
    simp [h, generic_activity_iomon_cb]

/-- C10: when a translator issues both the activity signal and a typed
state, the activity publication comes first: unconditionally so for the
USB cable and camera launch button, and on positive classifications for
the keyboard slide, lid cover and lens cover (whose negative
classification publishes the typed state alone). -/
theorem activity_published_before_state (lit data : List Char) :
    (∃ st, usb_cable_iomon_cb lit data =
       [Pub.device_inactive false, Pub.usb_cable st]) ∧
    (∃ bs, camera_launch_button_iomon_cb lit data =
       [Pub.device_inactive false, Pub.camera_button bs]) ∧
    (∃ cs, kbd_slide_iomon_cb lit data =
         [Pub.device_inactive false, Pub.keyboard_slide cs] ∨
       kbd_slide_iomon_cb lit data = [Pub.keyboard_slide cs]) ∧
    (∃ cs, lid_cover_iomon_cb lit data =
         [Pub.device_inactive false, Pub.lid_cover cs] ∨
       lid_cover_iomon_cb lit data = [Pub.lid_cover cs]) ∧
    (∃ cs, lens_cover_iomon_cb lit data =
         [Pub.device_inactive false, Pub.lens_cover cs] ∨
       lens_cover_iomon_cb lit data = [Pub.lens_cover cs]) := by
  unfold usb_cable_iomon_cb camera_launch_button_iomon_cb kbd_slide_iomon_cb
    lid_cover_iomon_cb lens_cover_iomon_cb
  by_cases h : strncmp data lit lit.length = 0
  · refine ⟨⟨_, rfl⟩, ⟨_, rfl⟩, ?_, ?_, ?_⟩ <;>
      exact ⟨cover_state_t.COVER_OPEN, Or.inl (by simp [h])⟩
  · refine ⟨⟨_, rfl⟩, ⟨_, rfl⟩, ?_, ?_, ?_⟩ <;>
      exact ⟨cover_state_t.COVER_CLOSED, Or.inr (by simp [h])⟩

end EventSwitches
